import Mathlib

set_option maxRecDepth 8000

/-! Shallow embedding of the Solidity contracts `PolicyManager` and
`IoTAccessControl` of the IoT access-control repository.  Solidity
`uint256`/`uint8` quantities are modelled as `Nat` (the arithmetic in these
contracts is addition, division and modulo on values far below 2^256, and
Solidity 0.8 reverts on overflow rather than wrapping), addresses as `Nat`,
storage mappings as total functions with the type's zero value as default,
and reverting external functions as `Except String` carrying the revert
string; `block.timestamp` is passed explicitly as a `now` argument.
Event emission and the external `AuditLogger` calls have no effect on the
state modelled here and are omitted. -/

namespace PolicyManager

inductive PolicyType where
  | RBAC
  | ABAC
  | TimeBased
  | LocationBased
  | Composite
deriving DecidableEq

inductive PolicyEffect where
  | Allow
  | Deny
deriving DecidableEq

inductive ComparisonOperator where
  | Equal
  | NotEqual
  | GreaterThan
  | LessThan
  | Contains
  | StartsWith
deriving DecidableEq

structure AttributeCondition where
  attributeName : String
  expectedValue : String
  operator : ComparisonOperator
deriving DecidableEq

structure TimeConstraint where
  startTime : Nat
  endTime : Nat
  allowedDays : List Nat
  startHour : Nat
  endHour : Nat
  isRecurring : Bool
deriving DecidableEq

structure LocationConstraint where
  allowedLocations : List String
  deniedLocations : List String
  radiusMeters : Nat
  coordinates : String
deriving DecidableEq

/-- The `Policy` struct.  The per-user usage mapping inside the struct is a
total function with default 0. -/
structure Policy where
  policyId : String
  name : String
  description : String
  policyType : PolicyType
  effect : PolicyEffect
  creator : Nat
  createdAt : Nat
  priority : Nat
  isActive : Bool
  requiredRoles : List String
  subjectConditions : List AttributeCondition
  resourceTypes : List String
  resourceIds : List String
  resourceConditions : List AttributeCondition
  allowedActions : List String
  timeConstraint : TimeConstraint
  locationConstraint : LocationConstraint
  maxUsageCount : Nat
  currentUsageCount : Nat
  userUsageCount : Nat → Nat

/-- The zero value of the `Policy` struct, returned by the `policies` mapping
for ids that were never written. -/
def defaultPolicy : Policy where
  policyId := ""
  name := ""
  description := ""
  policyType := PolicyType.RBAC
  effect := PolicyEffect.Allow
  creator := 0
  createdAt := 0
  priority := 0
  isActive := false
  requiredRoles := []
  subjectConditions := []
  resourceTypes := []
  resourceIds := []
  resourceConditions := []
  allowedActions := []
  timeConstraint := ⟨0, 0, [], 0, 0, false⟩
  locationConstraint := ⟨[], [], 0, ""⟩
  maxUsageCount := 0
  currentUsageCount := 0
  userUsageCount := fun _ => 0

/-- Contract storage of `PolicyManager`.  The `policySets`, `userPolicies`,
`resourcePolicies` and `hiddenPolicies` mappings are never read by the
functions modelled here and are omitted. -/
structure PMState where
  admin : Nat
  totalPolicies : Nat
  policies : String → Policy
  policyExists : String → Bool

/-- The constructor: `admin = msg.sender; totalPolicies = 0`, all storage at
its zero value. -/
def PMState.init (sender : Nat) : PMState where
  admin := sender
  totalPolicies := 0
  policies := fun _ => defaultPolicy
  policyExists := fun _ => false

/-- Embeds `_evaluateAttributeCondition`.  The source compares
`keccak256(bytes x) == keccak256(bytes y)`, i.e. byte-string equality, for
`Equal`/`NotEqual`; for `Contains` it compares `bytes(...).length`; for
`GreaterThan`, `LessThan` and `StartsWith` it falls through to
`return true`. -/
def _evaluateAttributeCondition (condition : AttributeCondition)
    (actualValue : String) : Bool :=
  if condition.operator = ComparisonOperator.Equal then
    decide (actualValue = condition.expectedValue)
  else if condition.operator = ComparisonOperator.NotEqual then
    decide (actualValue ≠ condition.expectedValue)
  else if condition.operator = ComparisonOperator.Contains then
    decide (condition.expectedValue.utf8ByteSize ≤ actualValue.utf8ByteSize)
  else
    true

/-- The inner scan of `_evaluateSubjectConditions`: walk the flat
key/value array two entries at a time (`j += 2`, requiring `j + 1 < length`)
and return the value of the first key equal to the wanted name. -/
def findAttrValue : List String → String → Option String
  | key :: value :: rest, name =>
      if key = name then some value else findAttrValue rest name
  | _, _ => none

/-- Embeds `_evaluateSubjectConditions`: the `requiredRoles` branch of the
source is an empty placeholder; every attribute condition must be met, where
an absent key leaves `conditionMet` at `false`. -/
def _evaluateSubjectConditions (policy : Policy)
    (subjectAttributes : List String) : Bool :=
  policy.subjectConditions.all fun condition =>
    match findAttrValue subjectAttributes condition.attributeName with
    | some v => _evaluateAttributeCondition condition v
    | none => false

/-- Embeds `_isActionAllowed`: an empty `allowedActions` list means no
restriction, otherwise the action must occur in the list (keccak byte
equality, i.e. string equality). -/
def _isActionAllowed (allowedActions : List String) (action : String) : Bool :=
  if allowedActions.length = 0 then true
  else allowedActions.any fun a => decide (a = action)

/-- Embeds `_evaluateTimeConstraints` with `block.timestamp` passed as
`currentTime`.  Note the source returns `true` whenever both `startTime` and
`endTime` are zero (even for recurring constraints), computes the weekday as
`((t / 86400) + 4) % 7` (0 = Sunday), and compares the hour range on
`currentHour * 100`, discarding the minutes. -/
def _evaluateTimeConstraints (constraint : TimeConstraint)
    (currentTime : Nat) : Bool :=
  if constraint.startTime = 0 ∧ constraint.endTime = 0 then
    true
  else if constraint.isRecurring = false then
    decide (constraint.startTime ≤ currentTime ∧ currentTime ≤ constraint.endTime)
  else
    let dayOfWeek := (currentTime / 86400 + 4) % 7
    if (constraint.allowedDays.any fun d => decide (d = dayOfWeek)) = false then
      false
    else
      let currentHourMinute := currentTime % 86400 / 3600 * 100
      decide (constraint.startHour ≤ currentHourMinute ∧
              currentHourMinute ≤ constraint.endHour)

/-- Embeds `_evaluateLocationConstraints`: with no location lists the
constraint passes, and the remaining check is a placeholder that also
returns `true`. -/
def _evaluateLocationConstraints (constraint : LocationConstraint)
    (_currentLocation : String) : Bool :=
  if constraint.allowedLocations.length = 0 ∧
     constraint.deniedLocations.length = 0 then
    true
  else
    true

/-- Embeds `_evaluateSinglePolicy`, reading the policy from storage by id:
usage-cap check, action check, subject conditions, time constraint, then the
(placeholder) location constraint. -/
def _evaluateSinglePolicy (s : PMState) (policyId : String) (_subject : Nat)
    (_resourceId : String) (action : String) (subjectAttributes : List String)
    (now : Nat) : Bool :=
  let policy := s.policies policyId
  if policy.maxUsageCount > 0 ∧ policy.currentUsageCount ≥ policy.maxUsageCount then
    false
  else if (_isActionAllowed policy.allowedActions action) = false then
    false
  else if (_evaluateSubjectConditions policy subjectAttributes) = false then
    false
  else if (_evaluateTimeConstraints policy.timeConstraint now) = false then
    false
  else if (_evaluateLocationConstraints policy.locationConstraint "") = false then
    false
  else
    true

/-- Embeds `_getApplicablePolicies`.  The source allocates an array of size
`totalPolicies` but never fills it (the loop that would iterate the indexed
policies is absent, with the comment "For demonstration, returning empty
array"), so `count` stays 0 and the resized result is always the empty
array. -/
def _getApplicablePolicies (_s : PMState) (_resource _action : String) :
    List String :=
  []

/-- The four locals of `evaluatePolicy`'s combination loop:
`hasAllowPolicy`, `hasDenyPolicy`, `highestAllowPriority`,
`highestDenyPriority`, all initialised to `false`/0. -/
structure EvalFlags where
  hasAllowPolicy : Bool
  hasDenyPolicy : Bool
  highestAllowPriority : Nat
  highestDenyPriority : Nat
deriving DecidableEq

def initFlags : EvalFlags := ⟨false, false, 0, 0⟩

/-- The flag update performed for a matched policy inside `evaluatePolicy`:
`if (effect == Allow && priority >= highestAllowPriority) {...} else if
(effect == Deny && priority >= highestDenyPriority) {...}`. -/
def updateFlags (f : EvalFlags) (effect : PolicyEffect) (priority : Nat) :
    EvalFlags :=
  if effect = PolicyEffect.Allow ∧ f.highestAllowPriority ≤ priority then
    { f with hasAllowPolicy := true, highestAllowPriority := priority }
  else if effect = PolicyEffect.Deny ∧ f.highestDenyPriority ≤ priority then
    { f with hasDenyPolicy := true, highestDenyPriority := priority }
  else
    f

/-- The final combination of `evaluatePolicy`: deny takes precedence when a
deny matched with priority at least the highest allow priority, otherwise
the result is whether any allow matched. -/
def finalDecision (f : EvalFlags) : Bool :=
  if f.hasDenyPolicy = true ∧ f.highestAllowPriority ≤ f.highestDenyPriority then
    false
  else
    f.hasAllowPolicy

/-- The body of `evaluatePolicy`'s `for` loop over the applicable policy
ids: inactive policies are skipped; a matched policy updates the flags and
increments `currentUsageCount` and `userUsageCount[subject]` in storage. -/
def evaluatePolicyLoop (s : PMState) (ids : List String) (subject : Nat)
    (resourceId action : String) (subjectAttributes : List String) (now : Nat)
    (f : EvalFlags) : EvalFlags × PMState :=
  match ids with
  | [] => (f, s)
  | policyId :: rest =>
      let policy := s.policies policyId
      if policy.isActive = false then
        evaluatePolicyLoop s rest subject resourceId action subjectAttributes now f
      else if _evaluateSinglePolicy s policyId subject resourceId action
          subjectAttributes now then
        let f' := updateFlags f policy.effect policy.priority
        let policy' := { policy with
          currentUsageCount := policy.currentUsageCount + 1,
          userUsageCount := fun a =>
            if a = subject then policy.userUsageCount a + 1
            else policy.userUsageCount a }
        let s' := { s with policies := fun i =>
          if i = policyId then policy' else s.policies i }
        evaluatePolicyLoop s' rest subject resourceId action subjectAttributes now f'
      else
        evaluatePolicyLoop s rest subject resourceId action subjectAttributes now f

/-- Embeds `evaluatePolicy` (a state-changing external function): gather the
applicable policies, run the combination loop, and apply the
deny-takes-precedence rule. -/
def evaluatePolicy (s : PMState) (subject : Nat)
    (resourceId resource action : String) (subjectAttributes : List String)
    (now : Nat) : Bool × PMState :=
  let applicablePolicies := _getApplicablePolicies s resource action
  let r := evaluatePolicyLoop s applicablePolicies subject resourceId action
    subjectAttributes now initFlags
  (finalDecision r.1, r.2)

/-- Zips the three attribute arrays of `createABACPolicy` into the pushed
`AttributeCondition` records (the lengths are equal by the `require`). -/
def mkConditions : List String → List String → List ComparisonOperator →
    List AttributeCondition
  | n :: ns, v :: vs, o :: os => ⟨n, v, o⟩ :: mkConditions ns vs os
  | _, _, _ => []

/-- Embeds `createABACPolicy`.  The operators arrive already decoded (the
source decodes `uint8` values, reverting on out-of-range ones). -/
def createABACPolicy (s : PMState) (sender : Nat)
    (policyId name description : String) (effect : PolicyEffect)
    (priority : Nat) (requiredRoles subjectAttrNames subjectAttrValues : List String)
    (subjectAttrOperators : List ComparisonOperator)
    (resourceTypes allowedActions : List String) (now : Nat) :
    Except String PMState :=
  if s.policyExists policyId then
    Except.error "PolicyManager: Policy already exists"
  else if (policyId.utf8ByteSize > 0) = false then
    Except.error "PolicyManager: Policy ID cannot be empty"
  else if (subjectAttrNames.length = subjectAttrValues.length ∧
           subjectAttrValues.length = subjectAttrOperators.length) = false then
    Except.error "PolicyManager: Subject attributes mismatch"
  else
    let policy := { s.policies policyId with
      policyId := policyId
      name := name
      description := description
      policyType := PolicyType.ABAC
      effect := effect
      creator := sender
      createdAt := now
      priority := priority
      isActive := true
      requiredRoles := requiredRoles
      resourceTypes := resourceTypes
      allowedActions := allowedActions
      maxUsageCount := 0
      currentUsageCount := 0
      subjectConditions := (s.policies policyId).subjectConditions ++
        mkConditions subjectAttrNames subjectAttrValues subjectAttrOperators }
    Except.ok { s with
      policies := fun i => if i = policyId then policy else s.policies i
      policyExists := fun i => if i = policyId then true else s.policyExists i
      totalPolicies := s.totalPolicies + 1 }

/-- Embeds `setPolicyUsageLimit` with its `policyExists_` and
`onlyPolicyCreator` modifiers; the new limit is stored unconditionally. -/
def setPolicyUsageLimit (s : PMState) (sender : Nat) (policyId : String)
    (maxUsageCount : Nat) : Except String PMState :=
  if (s.policyExists policyId) = false then
    Except.error "PolicyManager: Policy does not exist"
  else if ¬ ((s.policies policyId).creator = sender ∨ sender = s.admin) then
    Except.error "PolicyManager: Only policy creator or admin can modify"
  else
    Except.ok { s with policies := fun i =>
      (if i = policyId then { s.policies policyId with maxUsageCount := maxUsageCount }
       else s.policies i) }

/-- Embeds the external view `checkTimeConstraints`, a placeholder that
always returns `true`. -/
def checkTimeConstraints (_user : Nat) (_action : String)
    (_timestamp : Nat) : Bool :=
  true

end PolicyManager

namespace IoTAccessControl

structure AccessRequest where
  requester : Nat
  deviceId : String
  resource : String
  action : String
  timestamp : Nat
  expirationTime : Nat
  isActive : Bool
  attributes : String → String
  attributeKeys : List String

structure AccessGrant where
  grantId : String
  grantee : Nat
  deviceId : String
  resource : String
  action : String
  grantedAt : Nat
  validUntil : Nat
  isRevoked : Bool
  grantedBy : Nat
  conditions : String

structure DelegationChain where
  delegator : Nat
  delegatee : Nat
  permissions : List String
  validUntil : Nat
  maxDelegationDepth : Nat
  isActive : Bool
deriving DecidableEq

/-- Zero value of the `AccessRequest` struct. -/
def defaultAccessRequest : AccessRequest where
  requester := 0
  deviceId := ""
  resource := ""
  action := ""
  timestamp := 0
  expirationTime := 0
  isActive := false
  attributes := fun _ => ""
  attributeKeys := []

/-- Zero value of the `AccessGrant` struct; the existence test
`bytes(grant.grantId).length > 0` is false exactly on this value. -/
def defaultAccessGrant : AccessGrant where
  grantId := ""
  grantee := 0
  deviceId := ""
  resource := ""
  action := ""
  grantedAt := 0
  validUntil := 0
  isRevoked := false
  grantedBy := 0
  conditions := ""

/-- Results of the external `DeviceRegistry` view calls consumed by
`IoTAccessControl`. -/
structure Env where
  isDeviceRegistered : String → Bool
  isDeviceActive : String → Bool
  hasDevicePermission : Nat → String → String → Bool

/-- Contract storage of `IoTAccessControl` plus the storage of the linked
`PolicyManager` (whose state-changing `evaluatePolicy` is called during
request evaluation).  `selfAddr` stands for `address(this)`. -/
structure ACState where
  admin : Nat
  selfAddr : Nat
  totalAccessRequests : Nat
  totalAccessGrants : Nat
  totalAccessDenials : Nat
  accessRequests : Nat → AccessRequest
  accessGrants : String → AccessGrant
  delegationChains : Nat → List DelegationChain
  revokedGrants : String → Bool
  userAccessCount : Nat → Nat
  deviceAccessCount : String → Nat
  pm : PolicyManager.PMState

/-- The constructor: counters start at zero, storage at its zero value. -/
def ACState.init (sender selfAddr : Nat) (pm : PolicyManager.PMState) :
    ACState where
  admin := sender
  selfAddr := selfAddr
  totalAccessRequests := 0
  totalAccessGrants := 0
  totalAccessDenials := 0
  accessRequests := fun _ => defaultAccessRequest
  accessGrants := fun _ => defaultAccessGrant
  delegationChains := fun _ => []
  revokedGrants := fun _ => false
  userAccessCount := fun _ => 0
  deviceAccessCount := fun _ => 0
  pm := pm

/-- The attribute-storing loop of `requestAccess`: assignments
`attributes[keys[i]] = values[i]` in index order over the zero-valued
mapping (the two lists have equal length by the `require`). -/
def storeAttributes (keys values : List String) : String → String :=
  (keys.zip values).foldl
    (fun m kv => fun key => if key = kv.1 then kv.2 else m key)
    (fun _ => "")

/-- Embeds `_checkDelegationChain`: some chain of the user is active, not
yet expired (`validUntil > block.timestamp`) and lists the action among its
permissions. -/
def _checkDelegationChain (s : ACState) (user : Nat) (action : String)
    (now : Nat) : Bool :=
  (s.delegationChains user).any fun d =>
    d.isActive && decide (now < d.validUntil) &&
      d.permissions.any fun p => decide (p = action)

/-- Embeds `_checkTimeConstraints`, which forwards to the placeholder
`PolicyManager.checkTimeConstraints`. -/
def _checkTimeConstraints (_s : ACState) (user : Nat) (action : String)
    (now : Nat) : Bool :=
  PolicyManager.checkTimeConstraints user action now

/-- Embeds `_generateGrantId`: `"grant_" + toString(requestId) + "_" +
toString(block.timestamp)` with decimal `Strings.toString`. -/
def _generateGrantId (requestId now : Nat) : String :=
  "grant_" ++ toString requestId ++ "_" ++ toString now

/-- Embeds `_grantAccess`: store the new grant, bump `totalAccessGrants` and
the per-user/per-device counters. -/
def _grantAccess (s : ACState) (requestId : Nat) (now : Nat) : ACState :=
  let request := s.accessRequests requestId
  let grantId := _generateGrantId requestId now
  let grant : AccessGrant := {
    grantId := grantId
    grantee := request.requester
    deviceId := request.deviceId
    resource := request.resource
    action := request.action
    grantedAt := now
    validUntil := request.expirationTime
    isRevoked := false
    grantedBy := s.selfAddr
    conditions := "Standard ABAC policy evaluation" }
  { s with
    accessGrants := fun g => if g = grantId then grant else s.accessGrants g
    totalAccessGrants := s.totalAccessGrants + 1
    userAccessCount := fun a =>
      (if a = request.requester then s.userAccessCount a + 1
       else s.userAccessCount a)
    deviceAccessCount := fun d =>
      (if d = request.deviceId then s.deviceAccessCount d + 1
       else s.deviceAccessCount d) }

/-- Embeds `_denyAccess`: mark the request inactive and bump
`totalAccessDenials`. -/
def _denyAccess (s : ACState) (requestId : Nat) (_reason : String)
    (_now : Nat) : ACState :=
  let request := s.accessRequests requestId
  { s with
    accessRequests := fun i =>
      (if i = requestId then { request with isActive := false }
       else s.accessRequests i)
    totalAccessDenials := s.totalAccessDenials + 1 }

/-- Embeds `_evaluateAccessRequest`: delegation check, the state-changing
`policyManager.evaluatePolicy` call (note the source passes only the
attribute keys as the subject attributes), the `DeviceRegistry` permission
check and the placeholder time check, then grant or deny. -/
def _evaluateAccessRequest (env : Env) (s : ACState) (requestId : Nat)
    (now : Nat) : ACState :=
  let request := s.accessRequests requestId
  let hasDelegation := _checkDelegationChain s request.requester request.action now
  let pr := PolicyManager.evaluatePolicy s.pm request.requester
    request.deviceId request.resource request.action request.attributeKeys now
  let policyResult := pr.1
  let s₁ := { s with pm := pr.2 }
  let devicePermission := env.hasDevicePermission request.requester
    request.deviceId request.action
  let timeConstraint := _checkTimeConstraints s₁ request.requester request.action now
  if policyResult && (devicePermission || hasDelegation) && timeConstraint then
    _grantAccess s₁ requestId now
  else
    _denyAccess s₁ requestId
      "Policy evaluation failed or insufficient permissions" now

/-- Embeds `requestAccess` with its `onlyAuthorizedDevice` modifier and
`require`s; on success the request is stored, `totalAccessRequests` is
incremented and the request is immediately evaluated to a terminal
grant/deny state. -/
def requestAccess (env : Env) (s : ACState) (sender : Nat)
    (deviceId resource action : String)
    (attributeKeys attributeValues : List String)
    (validityDuration now : Nat) : Except String (Nat × ACState) :=
  if (env.isDeviceRegistered deviceId) = false then
    Except.error "IoTAccessControl: Device not registered"
  else if (env.isDeviceActive deviceId) = false then
    Except.error "IoTAccessControl: Device not active"
  else if ¬ (attributeKeys.length = attributeValues.length) then
    Except.error "IoTAccessControl: Attributes mismatch"
  else if ¬ (validityDuration > 0 ∧ validityDuration ≤ 86400) then
    Except.error "IoTAccessControl: Invalid validity duration"
  else
    let requestId := s.totalAccessRequests
    let s₁ := { s with totalAccessRequests := s.totalAccessRequests + 1 }
    let request : AccessRequest := {
      requester := sender
      deviceId := deviceId
      resource := resource
      action := action
      timestamp := now
      expirationTime := now + validityDuration
      isActive := true
      attributes := storeAttributes attributeKeys attributeValues
      attributeKeys := attributeKeys }
    let s₂ := { s₁ with accessRequests := fun i =>
      (if i = requestId then request else s₁.accessRequests i) }
    Except.ok (requestId, _evaluateAccessRequest env s₂ requestId now)

/-- Embeds `revokeAccess` with its `onlyValidGrant` modifier (existence,
not revoked, not expired, in that order) and the admin/grantee/granter
authorisation check. -/
def revokeAccess (s : ACState) (sender : Nat) (grantId : String)
    (_reason : String) (now : Nat) : Except String ACState :=
  if ¬ ((s.accessGrants grantId).grantId.utf8ByteSize > 0) then
    Except.error "IoTAccessControl: Grant does not exist"
  else if (s.accessGrants grantId).isRevoked then
    Except.error "IoTAccessControl: Grant is revoked"
  else if ¬ ((s.accessGrants grantId).validUntil > now) then
    Except.error "IoTAccessControl: Grant expired"
  else if ¬ (sender = s.admin ∨ sender = (s.accessGrants grantId).grantee ∨
             sender = (s.accessGrants grantId).grantedBy) then
    Except.error "IoTAccessControl: Unauthorized revocation attempt"
  else
    Except.ok { s with
      accessGrants := fun g =>
        (if g = grantId then { s.accessGrants grantId with isRevoked := true }
         else s.accessGrants g)
      revokedGrants := fun g => if g = grantId then true else s.revokedGrants g }

/-- Embeds `createDelegation` with its `validTimeframe` modifier (which
runs before the body's `require`s) and the self-delegation, non-empty
permissions and depth-range checks; on success the chain is pushed onto the
delegatee's list. -/
def createDelegation (s : ACState) (sender delegatee : Nat)
    (permissions : List String) (validityDuration maxDepth now : Nat) :
    Except String ACState :=
  if ¬ (now + validityDuration > now) then
    Except.error "IoTAccessControl: Invalid timeframe"
  else if delegatee = sender then
    Except.error "IoTAccessControl: Cannot delegate to self"
  else if ¬ (permissions.length > 0) then
    Except.error "IoTAccessControl: No permissions specified"
  else if ¬ (maxDepth > 0 ∧ maxDepth ≤ 5) then
    Except.error "IoTAccessControl: Invalid delegation depth"
  else
    Except.ok { s with delegationChains := fun a =>
      (if a = delegatee then
        s.delegationChains a ++
          [⟨sender, delegatee, permissions, now + validityDuration, maxDepth, true⟩]
       else s.delegationChains a) }

/-- Embeds the external view `isAccessGrantValid`: the grant exists, is not
revoked and `validUntil > block.timestamp`. -/
def isAccessGrantValid (s : ACState) (grantId : String) (now : Nat) : Bool :=
  let grant := s.accessGrants grantId
  decide (grant.grantId.utf8ByteSize > 0) && !grant.isRevoked &&
    decide (grant.validUntil > now)

end IoTAccessControl

/-- A per-policy record fed to the decision combination of
`evaluatePolicy`: whether the policy matched, its effect and its priority
(inactive policies are skipped before reaching the combination). -/
structure MatchResult where
  matched : Bool
  effect : PolicyManager.PolicyEffect
  priority : Nat
deriving DecidableEq

/-- One step of the combination: a matched result updates the flags, an
unmatched one leaves them unchanged (the source touches the flags only
inside `if (policyMatches)`). -/
def matchedStep (f : PolicyManager.EvalFlags) (r : MatchResult) :
    PolicyManager.EvalFlags :=
  if r.matched then PolicyManager.updateFlags f r.effect r.priority else f

/-- The decision combination of `evaluatePolicy` over a list of per-policy
results: fold the flag updates from the all-false initial flags, then apply
the deny-takes-precedence rule. -/
def combineDecision (results : List MatchResult) : Bool :=
  PolicyManager.finalDecision (results.foldl matchedStep PolicyManager.initFlags)

/-- Whether some result in the list is a matched policy with the given
effect. -/
def anyMatched (e : PolicyManager.PolicyEffect) : List MatchResult → Bool
  | [] => false
  | r :: rs => (r.matched && decide (r.effect = e)) || anyMatched e rs

/-- Highest priority among matched results with the given effect, 0 when
there is none (the initial value of the two priority trackers). -/
def highestMatched (e : PolicyManager.PolicyEffect) : List MatchResult → Nat
  | [] => 0
  | r :: rs =>
      if r.matched && decide (r.effect = e) then
        max r.priority (highestMatched e rs)
      else highestMatched e rs

/-- Reading of the claim for recurring time constraints, for comparison
with `_evaluateTimeConstraints`: the weekday of `now` (0 = Sunday, the
encoding `allowedDays` uses) is among `allowedDays`, and the clock reading
of `now` in the HHMM form that `startHour`/`endHour` use (hour times 100
plus minute) lies in the inclusive window. -/
def claimRecurringMatch (c : PolicyManager.TimeConstraint) (now : Nat) : Prop :=
  (now / 86400 + 4) % 7 ∈ c.allowedDays ∧
  c.startHour ≤ now % 86400 / 3600 * 100 + now % 3600 / 60 ∧
  now % 86400 / 3600 * 100 + now % 3600 / 60 ≤ c.endHour

/-- The usage-cap invariant of the claim: every policy with a usage limit
set has not exceeded it. -/
def UsageInv (s : PolicyManager.PMState) : Prop :=
  ∀ policyId, (s.policies policyId).maxUsageCount > 0 →
    (s.policies policyId).currentUsageCount ≤ (s.policies policyId).maxUsageCount

/-- Environment in which the device registry admits the request: the device
is registered and active and the requester has device permission, so a
denial can only come from the policy evaluation. -/
def scenarioEnv : IoTAccessControl.Env :=
  ⟨fun _ => true, fun _ => true, fun _ _ _ => true⟩

/-- Policy store after Scenario A's `createABACPolicy`: an active Allow
policy `P1` with priority 100 for resource type `lockset` and action
`unlock`. -/
def scenarioPM : PolicyManager.PMState :=
  match PolicyManager.createABACPolicy (PolicyManager.PMState.init 0) 0 "P1"
      "Unlock policy" "" PolicyManager.PolicyEffect.Allow 100 [] [] [] []
      ["lockset"] ["unlock"] 0 with
  | Except.ok s => s
  | Except.error _ => PolicyManager.PMState.init 0

/-- Access-control state linked to the Scenario A policy store. -/
def scenarioAC : IoTAccessControl.ACState :=
  IoTAccessControl.ACState.init 0 99 scenarioPM

/-- State after Scenario A's `requestAccess` call. -/
def scenarioACAfter : IoTAccessControl.ACState :=
  match IoTAccessControl.requestAccess scenarioEnv scenarioAC 5 "device1"
      "lockset" "unlock" [] [] 3600 1000 with
  | Except.ok r => r.2
  | Except.error _ => scenarioAC

/-- A state holding one never-revoked grant `g1` with `validUntil = 100`. -/
def grantCexState : IoTAccessControl.ACState :=
  { IoTAccessControl.ACState.init 0 99 (PolicyManager.PMState.init 0) with
    accessGrants := fun g =>
      (if g = "g1" then
        { IoTAccessControl.defaultAccessGrant with
          grantId := "g1", grantee := 7, grantedBy := 99,
          grantedAt := 10, validUntil := 100 }
       else IoTAccessControl.defaultAccessGrant) }

/-- State after the admin revokes `g1` at time 50. -/
def grantRevokedState : IoTAccessControl.ACState :=
  match IoTAccessControl.revokeAccess grantCexState 0 "g1" "maintenance" 50 with
  | Except.ok s => s
  | Except.error _ => grantCexState

/-- A stored policy with a usage limit of 5 of which 2 uses are spent. -/
def usagePolicy : PolicyManager.Policy :=
  { PolicyManager.defaultPolicy with
    policyId := "p", creator := 1, isActive := true,
    maxUsageCount := 5, currentUsageCount := 2 }

/-- Policy-manager state holding only `usagePolicy`; it satisfies the
usage-cap invariant. -/
def usagePMState : PolicyManager.PMState :=
  { PolicyManager.PMState.init 0 with
    totalPolicies := 1
    policies := fun i => if i = "p" then usagePolicy else PolicyManager.defaultPolicy
    policyExists := fun i => if i = "p" then true else false }

/-- State after the creator raises the usage limit of `p` to 7. -/
def usagePMRaised : PolicyManager.PMState :=
  match PolicyManager.setPolicyUsageLimit usagePMState 1 "p" 7 with
  | Except.ok s => s
  | Except.error _ => usagePMState

/-- A fresh access-control state with no delegations. -/
def delegationCexState : IoTAccessControl.ACState :=
  IoTAccessControl.ACState.init 0 99 (PolicyManager.PMState.init 0)

/-- The Monday-to-Friday 0900-1700 recurring constraint of the claim's
concrete example (with nonzero absolute endpoints, which a recurring
constraint created through `createTimeBasedPolicy` may carry). -/
def weekdayConstraint : PolicyManager.TimeConstraint :=
  ⟨1, 2, [1, 2, 3, 4, 5], 900, 1700, true⟩

/-- A stored policy whose usage limit is exhausted (2 of 2 uses spent). -/
def usageFullPolicy : PolicyManager.Policy :=
  { PolicyManager.defaultPolicy with
    policyId := "q", creator := 1, isActive := true,
    maxUsageCount := 2, currentUsageCount := 2 }

/-- Policy-manager state holding only the exhausted `usageFullPolicy`. -/
def usageFullState : PolicyManager.PMState :=
  { PolicyManager.PMState.init 0 with
    totalPolicies := 1
    policies := fun i => if i = "q" then usageFullPolicy else PolicyManager.defaultPolicy
    policyExists := fun i => if i = "q" then true else false }

/-- State after a successful `createDelegation` of a one-hop unlock chain. -/
def delegationOkState : IoTAccessControl.ACState :=
  match IoTAccessControl.createDelegation delegationCexState 1 2 ["unlock"] 10 3 0 with
  | Except.ok s => s
  | Except.error _ => delegationCexState

theorem utf8ByteSize_pos_iff (s : String) : 0 < s.utf8ByteSize ↔ s ≠ "" := by
  cases s with
  | mk data =>
    cases data with
    | nil => simp [show ("" : String).utf8ByteSize = 0 from rfl]
    | cons c cs =>
      constructor
      · intro _ h
        exact absurd (congrArg String.data h) (by simp)
      · intro _
        have hc := Char.utf8Size_pos c
        simp only [String.utf8ByteSize_mk, String.utf8Len_cons]
        omega

/-- C1: the candidate-policy lookup `_getApplicablePolicies` is an
unfilled stub that always returns the empty array, contradicting the
spec's `findCandidates`: after Scenario A's `createABACPolicy` stores the
active Allow policy `P1` (priority 100, resource type `lockset`, action
`unlock`), the lookup still returns `[]`, `evaluatePolicy` therefore finds
no candidate and returns false, and the Scenario A `requestAccess` with
validityDuration 3600 is Denied instead of Granted: `totalAccessDenials`
becomes 1, `totalAccessGrants` stays 0 and no grant record is created. -/
theorem getApplicablePolicies_stub_denies_scenarioA :
    PolicyManager.createABACPolicy (PolicyManager.PMState.init 0) 0 "P1"
      "Unlock policy" "" PolicyManager.PolicyEffect.Allow 100 [] [] [] []
      ["lockset"] ["unlock"] 0 = Except.ok scenarioPM ∧
    scenarioPM.policyExists "P1" = true ∧
    (scenarioPM.policies "P1").isActive = true ∧
    (scenarioPM.policies "P1").effect = PolicyManager.PolicyEffect.Allow ∧
    (scenarioPM.policies "P1").priority = 100 ∧
    (scenarioPM.policies "P1").resourceTypes = ["lockset"] ∧
    (scenarioPM.policies "P1").allowedActions = ["unlock"] ∧
    PolicyManager._getApplicablePolicies scenarioPM "lockset" "unlock" = [] ∧
    IoTAccessControl.requestAccess scenarioEnv scenarioAC 5 "device1" "lockset"
      "unlock" [] [] 3600 1000 = Except.ok (0, scenarioACAfter) ∧
    scenarioACAfter.totalAccessDenials = 1 ∧
    scenarioACAfter.totalAccessGrants = 0 ∧
    (scenarioACAfter.accessGrants (IoTAccessControl._generateGrantId 0 1000)).grantId = "" :=
  ⟨rfl, rfl, rfl, rfl, rfl, rfl, rfl, rfl, rfl, rfl, rfl, rfl⟩

/-- C4 counterexample: a GreaterThan condition whose expected value "abc"
and actual value "xyz" both fail to parse as numbers (they contain no
digits at all) still evaluates to a match, because the source leaves the
numeric operators unimplemented and falls through to `return true`. -/
theorem greaterThan_unparsed_matches :
    PolicyManager._evaluateAttributeCondition
      ⟨"level", "abc", PolicyManager.ComparisonOperator.GreaterThan⟩ "xyz" = true ∧
    ("abc".data.all Char.isDigit) = false ∧
    ("xyz".data.all Char.isDigit) = false := by decide

/-- C4 amended: for the operators GreaterThan and LessThan,
`_evaluateAttributeCondition` performs no numeric parsing at all and
returns a match for every pair of operand strings (fail-open, not the
fail-closed no-match the claim states). -/
theorem numeric_operators_always_match
    (condition : PolicyManager.AttributeCondition) (actualValue : String)
    (h : condition.operator = PolicyManager.ComparisonOperator.GreaterThan ∨
         condition.operator = PolicyManager.ComparisonOperator.LessThan) :
    PolicyManager._evaluateAttributeCondition condition actualValue = true := by
  rcases h with h | h <;>
    simp [PolicyManager._evaluateAttributeCondition, h]

theorem numeric_operators_always_match_witness :
    PolicyManager._evaluateAttributeCondition
      ⟨"level", "5", PolicyManager.ComparisonOperator.LessThan⟩ "3" = true :=
  numeric_operators_always_match _ _ (Or.inr rfl)

/-- C5 counterexample: a Contains condition expecting "ab" matches the
actual value "xy", which does not contain "ab" as a substring: the source
only compares byte lengths. -/
theorem contains_length_not_substring :
    PolicyManager._evaluateAttributeCondition
      ⟨"loc", "ab", PolicyManager.ComparisonOperator.Contains⟩ "xy" = true ∧
    ¬ ("ab".data <:+: "xy".data) := by decide

/-- C5 amended: for the Contains operator, `_evaluateAttributeCondition`
returns true iff the UTF-8 byte length of the actual value is at least that
of the expected value - a pure length comparison, not substring
containment. -/
theorem contains_iff_byte_length
    (condition : PolicyManager.AttributeCondition) (actualValue : String)
    (h : condition.operator = PolicyManager.ComparisonOperator.Contains) :
    (PolicyManager._evaluateAttributeCondition condition actualValue = true ↔
      condition.expectedValue.utf8ByteSize ≤ actualValue.utf8ByteSize) := by
  simp [PolicyManager._evaluateAttributeCondition, h]

theorem contains_iff_byte_length_witness :
    PolicyManager._evaluateAttributeCondition
      ⟨"loc", "ab", PolicyManager.ComparisonOperator.Contains⟩ "xyz" = true ↔
      ("ab" : String).utf8ByteSize ≤ ("xyz" : String).utf8ByteSize :=
  contains_iff_byte_length _ _ rfl

/-- C7 counterexample: at `now = validUntil` (here 100) an existing,
never-revoked grant is already reported invalid, although by the claim it
is only past `validUntil` ("the instant now > validUntil") that validity
may flip to false. -/
theorem grant_invalid_at_validUntil_boundary :
    IoTAccessControl.isAccessGrantValid grantCexState "g1" 100 = false ∧
    (grantCexState.accessGrants "g1").grantId ≠ "" ∧
    (grantCexState.accessGrants "g1").isRevoked = false ∧
    ¬ (100 > (grantCexState.accessGrants "g1").validUntil) := by decide

/-- C7 amended: `isAccessGrantValid` returns true iff the grant exists
(nonempty stored id), is not revoked, and `now < validUntil`: it flips to
false already the instant `now` reaches `validUntil` (the source requires
`validUntil > block.timestamp`), and in particular a past-`validUntil`
grant is invalid even when never revoked. -/
theorem isAccessGrantValid_iff (s : IoTAccessControl.ACState)
    (grantId : String) (now : Nat) :
    IoTAccessControl.isAccessGrantValid s grantId now = true ↔
      ((s.accessGrants grantId).grantId ≠ "" ∧
       (s.accessGrants grantId).isRevoked = false ∧
       now < (s.accessGrants grantId).validUntil) := by
  simp [IoTAccessControl.isAccessGrantValid, ← utf8ByteSize_pos_iff, and_assoc]

/-- C9 counterexample: a `createDelegation` call with a valid depth (3) and
a distinct delegatee but an empty permissions list fails, while the claim's
"otherwise" branch says a chain is appended whenever the depth is in [1,5]
and the delegatee differs from the delegator. -/
theorem createDelegation_empty_permissions_fails :
    IoTAccessControl.createDelegation delegationCexState 1 2 [] 10 3 0 =
      Except.error "IoTAccessControl: No permissions specified" ∧
    (2 : Nat) ≠ 1 ∧ (1 : Nat) ≤ 3 ∧ (3 : Nat) ≤ 5 :=
  ⟨rfl, by decide, by decide, by decide⟩

/-- C9 amended: `createDelegation` fails (reverting, so nothing is stored)
whenever maxDepth = 0, maxDepth ≥ 6 or the delegatee equals the delegator;
and when additionally the permissions list is non-empty and
validityDuration > 0 - two further preconditions the source checks - it
succeeds and appends exactly one chain with the given permissions,
`validUntil = now + validityDuration` and the given depth to the
delegatee's list, leaving every other list unchanged. -/
theorem createDelegation_amended :
    (∀ (s : IoTAccessControl.ACState) (sender delegatee : Nat)
       (permissions : List String) (validityDuration maxDepth now : Nat),
       (maxDepth = 0 ∨ 6 ≤ maxDepth ∨ delegatee = sender) →
       ∃ msg, IoTAccessControl.createDelegation s sender delegatee permissions
         validityDuration maxDepth now = Except.error msg) ∧
    (∀ (s : IoTAccessControl.ACState) (sender delegatee : Nat)
       (permissions : List String) (validityDuration maxDepth now : Nat),
       delegatee ≠ sender → permissions ≠ [] → 1 ≤ maxDepth → maxDepth ≤ 5 →
       0 < validityDuration →
       ∃ s', IoTAccessControl.createDelegation s sender delegatee permissions
           validityDuration maxDepth now = Except.ok s' ∧
         s'.delegationChains delegatee = s.delegationChains delegatee ++
           [⟨sender, delegatee, permissions, now + validityDuration, maxDepth, true⟩] ∧
         (∀ a, a ≠ delegatee → s'.delegationChains a = s.delegationChains a)) := by
  constructor
  · intro s sender delegatee permissions validityDuration maxDepth now h
    unfold IoTAccessControl.createDelegation
    split
    · exact ⟨_, rfl⟩
    · split
      · exact ⟨_, rfl⟩
      · split
        · exact ⟨_, rfl⟩
        · split
          · exact ⟨_, rfl⟩
          · rename_i hts hself hperm hdepth
            exfalso
            rcases h with h | h | h
            · exact absurd (not_not.mp hdepth) (by omega)
            · exact absurd (not_not.mp hdepth) (by omega)
            · exact absurd h hself
  · intro s sender delegatee permissions validityDuration maxDepth now
      hne hperm hd1 hd5 hdur
    unfold IoTAccessControl.createDelegation
    rw [if_neg (by omega), if_neg hne,
        if_neg (by simp [List.length_pos, hperm]), if_neg (by omega)]
    refine ⟨_, rfl, ?_, ?_⟩
    · simp
    · intro a ha
      simp [ha]

theorem createDelegation_amended_witness :
    IoTAccessControl.createDelegation delegationCexState 1 2 ["unlock"] 10 0 0 =
      Except.error "IoTAccessControl: Invalid delegation depth" ∧
    (IoTAccessControl.createDelegation delegationCexState 1 2 ["unlock"] 10 3 0).map
      (fun s' => s'.delegationChains 2) =
      Except.ok [⟨1, 2, ["unlock"], 10, 3, true⟩] := by
  obtain ⟨msg, hmsg⟩ := createDelegation_amended.1 delegationCexState 1 2
    ["unlock"] 10 0 0 (Or.inl rfl)
  obtain ⟨s', heq, hchain, -⟩ := createDelegation_amended.2 delegationCexState 1 2
    ["unlock"] 10 3 0 (by decide) (by decide) (by decide) (by decide) (by decide)
  refine ⟨rfl, ?_⟩
  rw [heq]
  show Except.ok (s'.delegationChains 2) = _
  rw [hchain]
  rfl

theorem updateFlags_highestAllow (f : PolicyManager.EvalFlags)
    (e : PolicyManager.PolicyEffect) (p : Nat) :
    (PolicyManager.updateFlags f e p).highestAllowPriority =
      (if e = PolicyManager.PolicyEffect.Allow then max f.highestAllowPriority p
       else f.highestAllowPriority) := by
  unfold PolicyManager.updateFlags
  split_ifs <;> simp_all <;> omega

theorem updateFlags_highestDeny (f : PolicyManager.EvalFlags)
    (e : PolicyManager.PolicyEffect) (p : Nat) :
    (PolicyManager.updateFlags f e p).highestDenyPriority =
      (if e = PolicyManager.PolicyEffect.Deny then max f.highestDenyPriority p
       else f.highestDenyPriority) := by
  unfold PolicyManager.updateFlags
  split_ifs <;> simp_all <;> omega

theorem matchedStep_inv_allow (f : PolicyManager.EvalFlags) (r : MatchResult)
    (h1 : f.hasAllowPolicy = false → f.highestAllowPriority = 0) :
    (matchedStep f r).hasAllowPolicy = false →
      (matchedStep f r).highestAllowPriority = 0 := by
  unfold matchedStep PolicyManager.updateFlags
  split_ifs <;> simp_all

theorem matchedStep_inv_deny (f : PolicyManager.EvalFlags) (r : MatchResult)
    (h2 : f.hasDenyPolicy = false → f.highestDenyPriority = 0) :
    (matchedStep f r).hasDenyPolicy = false →
      (matchedStep f r).highestDenyPriority = 0 := by
  unfold matchedStep PolicyManager.updateFlags
  split_ifs <;> simp_all

theorem matchedStep_hasAllow (f : PolicyManager.EvalFlags) (r : MatchResult)
    (h1 : f.hasAllowPolicy = false → f.highestAllowPriority = 0) :
    (matchedStep f r).hasAllowPolicy =
      (f.hasAllowPolicy ||
        (r.matched && decide (r.effect = PolicyManager.PolicyEffect.Allow))) := by
  cases hfa : f.hasAllowPolicy with
  | true =>
    unfold matchedStep PolicyManager.updateFlags
    split_ifs <;> simp_all
  | false =>
    have h0 := h1 hfa
    unfold matchedStep PolicyManager.updateFlags
    split_ifs <;> simp_all

theorem matchedStep_hasDeny (f : PolicyManager.EvalFlags) (r : MatchResult)
    (h2 : f.hasDenyPolicy = false → f.highestDenyPriority = 0) :
    (matchedStep f r).hasDenyPolicy =
      (f.hasDenyPolicy ||
        (r.matched && decide (r.effect = PolicyManager.PolicyEffect.Deny))) := by
  cases hfd : f.hasDenyPolicy with
  | true =>
    unfold matchedStep PolicyManager.updateFlags
    split_ifs <;> simp_all
  | false =>
    have h0 := h2 hfd
    unfold matchedStep PolicyManager.updateFlags
    split_ifs <;> simp_all

theorem highestMatched_cons (e : PolicyManager.PolicyEffect) (r : MatchResult)
    (rs : List MatchResult) :
    highestMatched e (r :: rs) =
      (if r.matched && decide (r.effect = e) then
        max r.priority (highestMatched e rs)
       else highestMatched e rs) := rfl

theorem foldl_matchedStep_highestAllow (rs : List MatchResult) :
    ∀ f : PolicyManager.EvalFlags,
      (rs.foldl matchedStep f).highestAllowPriority =
        max f.highestAllowPriority
          (highestMatched PolicyManager.PolicyEffect.Allow rs) := by
  induction rs with
  | nil => intro f; simp [highestMatched]
  | cons r rs ih =>
    intro f
    rw [List.foldl_cons, ih, highestMatched_cons]
    by_cases hm : r.matched = true
    · by_cases he : r.effect = PolicyManager.PolicyEffect.Allow
      · simp [matchedStep, hm, he, updateFlags_highestAllow, Nat.max_assoc]
      · simp [matchedStep, hm, he, updateFlags_highestAllow]
    · rw [Bool.not_eq_true] at hm
      simp [matchedStep, hm]

theorem foldl_matchedStep_highestDeny (rs : List MatchResult) :
    ∀ f : PolicyManager.EvalFlags,
      (rs.foldl matchedStep f).highestDenyPriority =
        max f.highestDenyPriority
          (highestMatched PolicyManager.PolicyEffect.Deny rs) := by
  induction rs with
  | nil => intro f; simp [highestMatched]
  | cons r rs ih =>
    intro f
    rw [List.foldl_cons, ih, highestMatched_cons]
    by_cases hm : r.matched = true
    · by_cases he : r.effect = PolicyManager.PolicyEffect.Deny
      · simp [matchedStep, hm, he, updateFlags_highestDeny, Nat.max_assoc]
      · simp [matchedStep, hm, he, updateFlags_highestDeny]
    · rw [Bool.not_eq_true] at hm
      simp [matchedStep, hm]

theorem foldl_matchedStep_has (rs : List MatchResult) :
    ∀ f : PolicyManager.EvalFlags,
      (f.hasAllowPolicy = false → f.highestAllowPriority = 0) →
      (f.hasDenyPolicy = false → f.highestDenyPriority = 0) →
      ((rs.foldl matchedStep f).hasAllowPolicy =
        (f.hasAllowPolicy || anyMatched PolicyManager.PolicyEffect.Allow rs) ∧
       (rs.foldl matchedStep f).hasDenyPolicy =
        (f.hasDenyPolicy || anyMatched PolicyManager.PolicyEffect.Deny rs)) := by
  induction rs with
  | nil => intro f _ _; simp [anyMatched]
  | cons r rs ih =>
    intro f h1 h2
    rw [List.foldl_cons]
    obtain ⟨ihA, ihD⟩ := ih (matchedStep f r)
      (matchedStep_inv_allow f r h1) (matchedStep_inv_deny f r h2)
    unfold anyMatched
    rw [ihA, ihD, matchedStep_hasAllow f r h1, matchedStep_hasDeny f r h2,
        Bool.or_assoc, Bool.or_assoc]
    exact ⟨rfl, rfl⟩

theorem combineDecision_eq (results : List MatchResult) :
    combineDecision results =
      (if anyMatched PolicyManager.PolicyEffect.Deny results = true ∧
          highestMatched PolicyManager.PolicyEffect.Allow results ≤
            highestMatched PolicyManager.PolicyEffect.Deny results
       then false
       else anyMatched PolicyManager.PolicyEffect.Allow results) := by
  unfold combineDecision PolicyManager.finalDecision
  obtain ⟨hA, hD⟩ := foldl_matchedStep_has results PolicyManager.initFlags
    (fun _ => rfl) (fun _ => rfl)
  rw [hA, hD, foldl_matchedStep_highestAllow results PolicyManager.initFlags,
      foldl_matchedStep_highestDeny results PolicyManager.initFlags]
  simp [PolicyManager.initFlags]

theorem anyMatched_eq_false (e : PolicyManager.PolicyEffect)
    (rs : List MatchResult) (h : ∀ r ∈ rs, r.matched = false) :
    anyMatched e rs = false := by
  induction rs with
  | nil => rfl
  | cons r rs ih =>
    unfold anyMatched
    rw [h r (List.mem_cons_self r rs), ih (fun x hx => h x (List.mem_cons_of_mem r hx))]
    rfl

/-- C2: the decision combination of `evaluatePolicy` over any finite list
of per-policy results is exactly: Deny when some matched Deny exists whose
highest priority is at least the highest priority among matched Allows
(both trackers starting at 0), otherwise Allow exactly when some Allow
matched, and Deny when nothing matched; in particular one matched Allow and
one matched Deny of equal priority combine to Deny. -/
theorem combineDecision_characterization :
    (∀ results : List MatchResult,
       combineDecision results =
         (if anyMatched PolicyManager.PolicyEffect.Deny results = true ∧
             highestMatched PolicyManager.PolicyEffect.Allow results ≤
               highestMatched PolicyManager.PolicyEffect.Deny results
          then false
          else anyMatched PolicyManager.PolicyEffect.Allow results)) ∧
    (∀ p : Nat,
       combineDecision [⟨true, PolicyManager.PolicyEffect.Allow, p⟩,
                        ⟨true, PolicyManager.PolicyEffect.Deny, p⟩] = false) ∧
    (∀ results : List MatchResult, (∀ r ∈ results, r.matched = false) →
       combineDecision results = false) := by
  refine ⟨combineDecision_eq, ?_, ?_⟩
  · intro p
    rw [combineDecision_eq]
    simp [anyMatched, highestMatched]
  · intro results h
    rw [combineDecision_eq]
    simp [anyMatched_eq_false PolicyManager.PolicyEffect.Allow results h,
          anyMatched_eq_false PolicyManager.PolicyEffect.Deny results h]

theorem combineDecision_characterization_witness :
    combineDecision [⟨true, PolicyManager.PolicyEffect.Deny, 3⟩] =
      (if anyMatched PolicyManager.PolicyEffect.Deny
            [⟨true, PolicyManager.PolicyEffect.Deny, 3⟩] = true ∧
          highestMatched PolicyManager.PolicyEffect.Allow
            [⟨true, PolicyManager.PolicyEffect.Deny, 3⟩] ≤
            highestMatched PolicyManager.PolicyEffect.Deny
              [⟨true, PolicyManager.PolicyEffect.Deny, 3⟩]
       then false
       else anyMatched PolicyManager.PolicyEffect.Allow
         [⟨true, PolicyManager.PolicyEffect.Deny, 3⟩]) ∧
    combineDecision [⟨true, PolicyManager.PolicyEffect.Allow, 7⟩,
                     ⟨true, PolicyManager.PolicyEffect.Deny, 7⟩] = false ∧
    combineDecision [⟨false, PolicyManager.PolicyEffect.Allow, 9⟩] = false :=
  ⟨combineDecision_characterization.1 _,
   combineDecision_characterization.2.1 7,
   combineDecision_characterization.2.2 _ (by decide)⟩

theorem evalSingle_usage_guard (s : PolicyManager.PMState) (policyId : String)
    (subject : Nat) (resourceId action : String) (attrs : List String) (now : Nat)
    (h : PolicyManager._evaluateSinglePolicy s policyId subject resourceId action
      attrs now = true)
    (hmax : (s.policies policyId).maxUsageCount > 0) :
    (s.policies policyId).currentUsageCount < (s.policies policyId).maxUsageCount := by
  by_contra hge
  simp only [PolicyManager._evaluateSinglePolicy] at h
  rw [if_pos ⟨hmax, Nat.le_of_not_lt hge⟩] at h
  exact Bool.false_ne_true h

theorem usageInv_update (s : PolicyManager.PMState) (policyId : String)
    (subject : Nat)
    (hguard : (s.policies policyId).maxUsageCount > 0 →
      (s.policies policyId).currentUsageCount < (s.policies policyId).maxUsageCount)
    (h : UsageInv s) :
    UsageInv { s with policies := fun i =>
      (if i = policyId then
        { s.policies policyId with
          currentUsageCount := (s.policies policyId).currentUsageCount + 1,
          userUsageCount := fun a =>
            (if a = subject then (s.policies policyId).userUsageCount a + 1
             else (s.policies policyId).userUsageCount a) }
       else s.policies i) } := by
  intro pid hmax
  by_cases hpid : pid = policyId
  · subst hpid
    simp only [eq_self_iff_true, if_true] at hmax ⊢
    exact Nat.succ_le_of_lt (hguard hmax)
  · simp only [if_neg hpid] at hmax ⊢
    exact h pid hmax

theorem evaluatePolicyLoop_usageInv (ids : List String) :
    ∀ (s : PolicyManager.PMState) (subject : Nat) (resourceId action : String)
      (attrs : List String) (now : Nat) (f : PolicyManager.EvalFlags),
      UsageInv s →
      UsageInv (PolicyManager.evaluatePolicyLoop s ids subject resourceId action
        attrs now f).2 := by
  induction ids with
  | nil => intro s _ _ _ _ _ _ h; exact h
  | cons policyId rest ih =>
    intro s subject resourceId action attrs now f h
    simp only [PolicyManager.evaluatePolicyLoop]
    split
    · exact ih _ _ _ _ _ _ _ h
    · split
      · rename_i hact hm
        exact ih _ _ _ _ _ _ _ (usageInv_update s policyId subject
          (fun hmax => evalSingle_usage_guard s policyId subject resourceId
            action attrs now hm hmax) h)
      · exact ih _ _ _ _ _ _ _ h

theorem setPolicyUsageLimit_usageInv (s : PolicyManager.PMState) (sender : Nat)
    (policyId : String) (newMax : Nat) (s' : PolicyManager.PMState)
    (h : PolicyManager.setPolicyUsageLimit s sender policyId newMax = Except.ok s')
    (hbound : newMax = 0 ∨ (s.policies policyId).currentUsageCount ≤ newMax)
    (hinv : UsageInv s) : UsageInv s' := by
  unfold PolicyManager.setPolicyUsageLimit at h
  split at h
  · exact Except.noConfusion h
  · split at h
    · exact Except.noConfusion h
    · injection h with h'
      subst h'
      intro pid hmax
      by_cases hpid : pid = policyId
      · subst hpid
        simp only [eq_self_iff_true, if_true] at hmax ⊢
        rcases hbound with h0 | hle
        · subst h0
          exact absurd hmax (by omega)
        · exact hle
      · simp only [if_neg hpid] at hmax ⊢
        exact hinv pid hmax

theorem usagePMState_inv : UsageInv usagePMState := by
  intro pid hmax
  by_cases hpid : pid = "p"
  · subst hpid
    decide
  · exfalso
    revert hmax
    simp [usagePMState, PolicyManager.PMState.init, hpid, PolicyManager.defaultPolicy]

/-- C3 counterexample: in a state satisfying the usage-cap invariant (the
only limited policy `p` has used 2 of 5 allowed matches), the creator's
`setPolicyUsageLimit` call lowering the limit to 1 succeeds and leaves
`currentUsageCount = 2 > 1 = maxUsageCount`: the operation does not keep
the invariant. -/
theorem setPolicyUsageLimit_breaks_usage_invariant :
    (usagePMState.policies "p").currentUsageCount = 2 ∧
    (usagePMState.policies "p").maxUsageCount = 5 ∧
    (PolicyManager.setPolicyUsageLimit usagePMState 1 "p" 1).map
      (fun s => decide ((s.policies "p").currentUsageCount ≤
        (s.policies "p").maxUsageCount)) = Except.ok false :=
  ⟨rfl, rfl, rfl⟩

/-- C3 amended: the evaluation path does preserve the usage-cap invariant:
`_evaluateSinglePolicy` refuses to match once `currentUsageCount` has
reached `maxUsageCount`, and the `evaluatePolicy` loop (over any list of
candidate ids) increments `currentUsageCount` and `userUsageCount[subject]`
only on a full match, so both the loop and `evaluatePolicy` preserve
`currentUsageCount ≤ maxUsageCount` for every limited policy;
`setPolicyUsageLimit`, however, stores the new limit unconditionally and
preserves the invariant only when the new limit is 0 (unlimited) or at
least the policy's `currentUsageCount`. -/
theorem usage_invariant_amended :
    (∀ (s : PolicyManager.PMState) (policyId : String) (subject : Nat)
       (resourceId action : String) (attrs : List String) (now : Nat),
       (s.policies policyId).maxUsageCount > 0 →
       (s.policies policyId).maxUsageCount ≤ (s.policies policyId).currentUsageCount →
       PolicyManager._evaluateSinglePolicy s policyId subject resourceId action
         attrs now = false) ∧
    (∀ (ids : List String) (s : PolicyManager.PMState) (subject : Nat)
       (resourceId action : String) (attrs : List String) (now : Nat)
       (f : PolicyManager.EvalFlags),
       UsageInv s →
       UsageInv (PolicyManager.evaluatePolicyLoop s ids subject resourceId action
         attrs now f).2) ∧
    (∀ (s : PolicyManager.PMState) (subject : Nat)
       (resourceId resource action : String) (attrs : List String) (now : Nat),
       UsageInv s →
       UsageInv (PolicyManager.evaluatePolicy s subject resourceId resource action
         attrs now).2) ∧
    (∀ (s : PolicyManager.PMState) (sender : Nat) (policyId : String)
       (newMax : Nat) (s' : PolicyManager.PMState),
       PolicyManager.setPolicyUsageLimit s sender policyId newMax = Except.ok s' →
       (newMax = 0 ∨ (s.policies policyId).currentUsageCount ≤ newMax) →
       UsageInv s → UsageInv s') := by
  refine ⟨?_, ?_, ?_, setPolicyUsageLimit_usageInv⟩
  · intro s policyId subject resourceId action attrs now hmax hge
    simp only [PolicyManager._evaluateSinglePolicy]
    rw [if_pos ⟨hmax, hge⟩]
  · exact fun ids => evaluatePolicyLoop_usageInv ids
  · intro s subject resourceId resource action attrs now h
    exact evaluatePolicyLoop_usageInv _ s subject resourceId action attrs now
      PolicyManager.initFlags h

theorem usage_invariant_amended_witness :
    PolicyManager._evaluateSinglePolicy usageFullState "q" 0 "dev" "unlock" [] 0 = false ∧
    UsageInv (PolicyManager.evaluatePolicyLoop usagePMState ["p"] 3 "dev" "unlock"
      [] 0 PolicyManager.initFlags).2 ∧
    UsageInv (PolicyManager.evaluatePolicy usagePMState 3 "dev" "lockset" "unlock"
      [] 0).2 ∧
    UsageInv usagePMRaised := by
  refine ⟨?_, ?_, ?_, ?_⟩
  · exact usage_invariant_amended.1 usageFullState "q" 0 "dev" "unlock" [] 0
      (by decide) (by decide)
  · exact usage_invariant_amended.2.1 ["p"] usagePMState 3 "dev" "unlock" [] 0
      PolicyManager.initFlags usagePMState_inv
  · exact usage_invariant_amended.2.2.1 usagePMState 3 "dev" "lockset" "unlock"
      [] 0 usagePMState_inv
  · exact usage_invariant_amended.2.2.2 usagePMState 1 "p" 7 usagePMRaised rfl
      (Or.inr (by decide)) usagePMState_inv

/-- C6 counterexample: two disagreements between the claim's reading and
the source.  First, a recurring constraint whose absolute endpoints are
both zero matches unconditionally (the zero-check precedes the recurring
branch), here at a Wednesday although `allowedDays` is empty.  Second, the
source compares the window on `hour * 100`, discarding minutes: a window
starting at 0930 rejects Wednesday 09:40 (computed 900 < 930) although its
clock reading 0940 lies inside the window. -/
theorem recurring_time_constraint_spec_mismatch :
    PolicyManager._evaluateTimeConstraints ⟨0, 0, [], 0, 0, true⟩ 554400 = true ∧
    ¬ claimRecurringMatch ⟨0, 0, [], 0, 0, true⟩ 554400 ∧
    PolicyManager._evaluateTimeConstraints
      ⟨1, 2, [1, 2, 3, 4, 5], 930, 1700, true⟩ 553200 = false ∧
    claimRecurringMatch ⟨1, 2, [1, 2, 3, 4, 5], 930, 1700, true⟩ 553200 := by
  unfold claimRecurringMatch
  decide

/-- C6 amended: for a recurring constraint whose `startTime` and `endTime`
are not both zero, `_evaluateTimeConstraints` matches iff the weekday of
`now` (0 = Sunday, computed as `((now / 86400) + 4) % 7`) is in
`allowedDays` and the truncated clock value `hour * 100` (minutes
discarded) lies in the inclusive window `[startHour, endHour]`; the
all-zero-endpoint constraint matches vacuously.  Concretely, for the
Monday-Friday 0900-1700 window, Wednesday 10:00 matches while Saturday
10:00 and Wednesday 20:00 do not. -/
theorem recurring_time_constraint_amended :
    (∀ (c : PolicyManager.TimeConstraint) (now : Nat),
       c.isRecurring = true → ¬ (c.startTime = 0 ∧ c.endTime = 0) →
       (PolicyManager._evaluateTimeConstraints c now = true ↔
         ((now / 86400 + 4) % 7 ∈ c.allowedDays ∧
          c.startHour ≤ now % 86400 / 3600 * 100 ∧
          now % 86400 / 3600 * 100 ≤ c.endHour))) ∧
    PolicyManager._evaluateTimeConstraints weekdayConstraint 554400 = true ∧
    PolicyManager._evaluateTimeConstraints weekdayConstraint 208800 = false ∧
    PolicyManager._evaluateTimeConstraints weekdayConstraint 590400 = false := by
  refine ⟨?_, by decide, by decide, by decide⟩
  intro c now hrec hz
  simp only [PolicyManager._evaluateTimeConstraints, if_neg hz, hrec]
  by_cases hday : (now / 86400 + 4) % 7 ∈ c.allowedDays
  · simp [List.any_eq_true, hday, and_assoc]
  · simp [List.any_eq_true, hday]

theorem recurring_time_constraint_amended_witness :
    PolicyManager._evaluateTimeConstraints weekdayConstraint 554400 = true ↔
      ((554400 / 86400 + 4) % 7 ∈ weekdayConstraint.allowedDays ∧
       weekdayConstraint.startHour ≤ 554400 % 86400 / 3600 * 100 ∧
       554400 % 86400 / 3600 * 100 ≤ weekdayConstraint.endHour) :=
  recurring_time_constraint_amended.1 weekdayConstraint 554400 rfl (by decide)

/-- C8: `revokeAccess` succeeds only for an existing, non-revoked,
non-expired grant and only when the caller is the admin, the grantee or
the granter, and then sets `isRevoked := true` (leaving every other grant
unchanged); called on an existing grant that is already revoked it fails
with the AlreadyRevoked revert (and, the call reverting, no state
changes), so revocation is one-way. -/
theorem revokeAccess_characterization :
    (∀ (s : IoTAccessControl.ACState) (sender : Nat) (grantId reason : String)
       (now : Nat) (s' : IoTAccessControl.ACState),
       IoTAccessControl.revokeAccess s sender grantId reason now = Except.ok s' →
       (sender = s.admin ∨ sender = (s.accessGrants grantId).grantee ∨
        sender = (s.accessGrants grantId).grantedBy) ∧
       (s.accessGrants grantId).grantId ≠ "" ∧
       (s.accessGrants grantId).isRevoked = false ∧
       now < (s.accessGrants grantId).validUntil ∧
       (s'.accessGrants grantId).isRevoked = true ∧
       (∀ g, g ≠ grantId → s'.accessGrants g = s.accessGrants g)) ∧
    (∀ (s : IoTAccessControl.ACState) (sender : Nat) (grantId reason : String)
       (now : Nat),
       (s.accessGrants grantId).grantId ≠ "" →
       (s.accessGrants grantId).isRevoked = true →
       IoTAccessControl.revokeAccess s sender grantId reason now =
         Except.error "IoTAccessControl: Grant is revoked") := by
  constructor
  · intro s sender grantId reason now s' h
    unfold IoTAccessControl.revokeAccess at h
    split at h
    · exact Except.noConfusion h
    · split at h
      · exact Except.noConfusion h
      · split at h
        · exact Except.noConfusion h
        · split at h
          · exact Except.noConfusion h
          · rename_i hex hrev hexp hauth
            injection h with h'
            subst h'
            have hrev' : (s.accessGrants grantId).isRevoked = false := by
              cases hb : (s.accessGrants grantId).isRevoked
              · rfl
              · exact absurd hb hrev
            refine ⟨not_not.mp hauth,
                    (utf8ByteSize_pos_iff _).mp (not_not.mp hex),
                    hrev', not_not.mp hexp, ?_, ?_⟩
            · simp
            · intro g hg
              simp [hg]
  · intro s sender grantId reason now hex hrev
    unfold IoTAccessControl.revokeAccess
    rw [if_neg (not_not.mpr ((utf8ByteSize_pos_iff _).mpr hex)), if_pos hrev]

theorem revokeAccess_characterization_witness :
    (grantRevokedState.accessGrants "g1").isRevoked = true ∧
    IoTAccessControl.revokeAccess grantRevokedState 0 "g1" "again" 50 =
      Except.error "IoTAccessControl: Grant is revoked" := by
  have h1 := revokeAccess_characterization.1 grantCexState 0 "g1" "maintenance" 50
    grantRevokedState rfl
  exact ⟨h1.2.2.2.2.1,
    revokeAccess_characterization.2 grantRevokedState 0 "g1" "again" 50
      (by decide) (by decide)⟩

theorem evaluateAccessRequest_counters (env : IoTAccessControl.Env)
    (s : IoTAccessControl.ACState) (rid now : Nat) :
    (IoTAccessControl._evaluateAccessRequest env s rid now).totalAccessRequests =
      s.totalAccessRequests ∧
    (((IoTAccessControl._evaluateAccessRequest env s rid now).totalAccessGrants =
        s.totalAccessGrants + 1 ∧
      (IoTAccessControl._evaluateAccessRequest env s rid now).totalAccessDenials =
        s.totalAccessDenials) ∨
     ((IoTAccessControl._evaluateAccessRequest env s rid now).totalAccessDenials =
        s.totalAccessDenials + 1 ∧
      (IoTAccessControl._evaluateAccessRequest env s rid now).totalAccessGrants =
        s.totalAccessGrants)) := by
  simp only [IoTAccessControl._evaluateAccessRequest]
  split
  · exact ⟨rfl, Or.inl ⟨rfl, rfl⟩⟩
  · exact ⟨rfl, Or.inr ⟨rfl, rfl⟩⟩

theorem requestAccess_ok (env : IoTAccessControl.Env)
    (s : IoTAccessControl.ACState) (sender : Nat)
    (deviceId resource action : String) (keys values : List String)
    (dur now rid : Nat) (s' : IoTAccessControl.ACState)
    (h : IoTAccessControl.requestAccess env s sender deviceId resource action
      keys values dur now = Except.ok (rid, s')) :
    ∃ s₂ : IoTAccessControl.ACState,
      s' = IoTAccessControl._evaluateAccessRequest env s₂ rid now ∧
      s₂.totalAccessRequests = s.totalAccessRequests + 1 ∧
      s₂.totalAccessGrants = s.totalAccessGrants ∧
      s₂.totalAccessDenials = s.totalAccessDenials := by
  simp only [IoTAccessControl.requestAccess] at h
  split at h
  · exact Except.noConfusion h
  · split at h
    · exact Except.noConfusion h
    · split at h
      · exact Except.noConfusion h
      · split at h
        · exact Except.noConfusion h
        · injection h with hpair
          injection hpair with h1 h2
          subst h1
          exact ⟨_, h2.symm, rfl, rfl, rfl⟩

/-- C10: a completed (non-reverting) `requestAccess` call increments
`totalAccessRequests` by exactly one and then exactly one of
`totalAccessGrants` or `totalAccessDenials` by exactly one (every request
reaches exactly one terminal outcome inside the same call), so it preserves
the invariant `totalAccessGrants + totalAccessDenials =
totalAccessRequests`; the other state-changing operations, `revokeAccess`
and `createDelegation`, leave all three counters unchanged, so the
invariant holds after every operation of the contract (all three counters
start at zero in the constructor). -/
theorem access_counters_invariant :
    (∀ (env : IoTAccessControl.Env) (s : IoTAccessControl.ACState) (sender : Nat)
       (deviceId resource action : String) (keys values : List String)
       (dur now rid : Nat) (s' : IoTAccessControl.ACState),
       IoTAccessControl.requestAccess env s sender deviceId resource action keys
         values dur now = Except.ok (rid, s') →
       s'.totalAccessRequests = s.totalAccessRequests + 1 ∧
       ((s'.totalAccessGrants = s.totalAccessGrants + 1 ∧
         s'.totalAccessDenials = s.totalAccessDenials) ∨
        (s'.totalAccessDenials = s.totalAccessDenials + 1 ∧
         s'.totalAccessGrants = s.totalAccessGrants)) ∧
       (s.totalAccessGrants + s.totalAccessDenials = s.totalAccessRequests →
        s'.totalAccessGrants + s'.totalAccessDenials = s'.totalAccessRequests)) ∧
    (∀ (s : IoTAccessControl.ACState) (sender : Nat) (grantId reason : String)
       (now : Nat) (s' : IoTAccessControl.ACState),
       IoTAccessControl.revokeAccess s sender grantId reason now = Except.ok s' →
       s'.totalAccessRequests = s.totalAccessRequests ∧
       s'.totalAccessGrants = s.totalAccessGrants ∧
       s'.totalAccessDenials = s.totalAccessDenials) ∧
    (∀ (s : IoTAccessControl.ACState) (sender delegatee : Nat)
       (permissions : List String) (dur depth now : Nat)
       (s' : IoTAccessControl.ACState),
       IoTAccessControl.createDelegation s sender delegatee permissions dur depth
         now = Except.ok s' →
       s'.totalAccessRequests = s.totalAccessRequests ∧
       s'.totalAccessGrants = s.totalAccessGrants ∧
       s'.totalAccessDenials = s.totalAccessDenials) := by
  refine ⟨?_, ?_, ?_⟩
  · intro env s sender deviceId resource action keys values dur now rid s' h
    obtain ⟨s₂, hs', h1, h2, h3⟩ := requestAccess_ok env s sender deviceId
      resource action keys values dur now rid s' h
    obtain ⟨hr, hgd⟩ := evaluateAccessRequest_counters env s₂ rid now
    subst hs'
    refine ⟨by rw [hr, h1], ?_, ?_⟩
    · rcases hgd with ⟨hg, hd⟩ | ⟨hd, hg⟩
      · exact Or.inl ⟨by rw [hg, h2], by rw [hd, h3]⟩
      · exact Or.inr ⟨by rw [hd, h3], by rw [hg, h2]⟩
    · intro hinv
      rcases hgd with ⟨hg, hd⟩ | ⟨hd, hg⟩ <;>
        rw [hr, h1, hg, hd, h2, h3] <;> omega
  · intro s sender grantId reason now s' h
    unfold IoTAccessControl.revokeAccess at h
    split at h
    · exact Except.noConfusion h
    · split at h
      · exact Except.noConfusion h
      · split at h
        · exact Except.noConfusion h
        · split at h
          · exact Except.noConfusion h
          · injection h with h'
            subst h'
            exact ⟨rfl, rfl, rfl⟩
  · intro s sender delegatee permissions dur depth now s' h
    unfold IoTAccessControl.createDelegation at h
    split at h
    · exact Except.noConfusion h
    · split at h
      · exact Except.noConfusion h
      · split at h
        · exact Except.noConfusion h
        · split at h
          · exact Except.noConfusion h
          · injection h with h'
            subst h'
            exact ⟨rfl, rfl, rfl⟩

theorem access_counters_invariant_witness :
    scenarioACAfter.totalAccessRequests = scenarioAC.totalAccessRequests + 1 ∧
    scenarioACAfter.totalAccessGrants + scenarioACAfter.totalAccessDenials =
      scenarioACAfter.totalAccessRequests ∧
    grantRevokedState.totalAccessGrants = grantCexState.totalAccessGrants ∧
    delegationOkState.totalAccessRequests = delegationCexState.totalAccessRequests := by
  have h1 := access_counters_invariant.1 scenarioEnv scenarioAC 5 "device1"
    "lockset" "unlock" [] [] 3600 1000 0 scenarioACAfter rfl
  have h2 := access_counters_invariant.2.1 grantCexState 0 "g1" "maintenance" 50
    grantRevokedState rfl
  have h3 := access_counters_invariant.2.2 delegationCexState 1 2 ["unlock"] 10 3 0
    delegationOkState rfl
  exact ⟨h1.1, h1.2.2 (by decide), h2.2.1, h3.1⟩
